import Mathlib

/-
Verification of the SeismicPlotter repository (src/seismic_plotter.py and
src/LecturaSeedlink.py) against its natural-language specification.

The embedding models waveform time on an integer sample-tick grid (one tick
per sample; a session sampling rate `rate` gives `rate` ticks per second) and
sample values as exact rationals.  obspy library calls made by the source are
modelled by their documented default behaviour:

* `Stream.merge(method=1, fill_value='interpolate')` — traces of one id are
  combined in starttime order; overlapping samples are taken from the
  later-starting trace (interpolation_samples = 0); missing samples in a gap
  are linearly interpolated between the last sample before and the first
  sample after the gap (numpy linspace with the two endpoints excluded).
* `trim(a, b, pad=True, fill_value=0, nearest_sample=True)` — keeps the
  samples inside [a, b] and zero-pads so the result spans exactly [a, b].
* `slice(a, b)` — crops to [a, b] without padding.
* `detrend('linear')` — subtracts the least-squares line;
  `detrend('demean')` — subtracts the arithmetic mean.
* `remove_response(inventory, output="VEL")` — modelled as division of the
  counts by the inventory's overall sensitivity (an exact scale); raised
  `KeyError` on a station absent from the inventories dict is the
  ResponseMissing failure of the spec.
* `integrate()` (default method 'cumtrapz') — cumulative trapezoidal
  integration, first output sample 0, length preserved.
* `differentiate()` (default method 'gradient') — numpy.gradient: one-sided
  differences at the two boundary samples, central differences inside;
  raises on traces with fewer than two samples.
-/

/-- A contiguous waveform block: samples at ticks
`start, start + 1, …, start + data.length - 1`. -/
structure Trace where
  start : Int
  data : List Rat
deriving DecidableEq

/-- Tick of the last sample (start - 1 for an empty trace). -/
def Trace.endTime (tr : Trace) : Int := tr.start + tr.data.length - 1

/-- `t` lies inside the trace's sample span. -/
def Trace.covers (tr : Trace) (t : Int) : Prop := tr.start ≤ t ∧ t ≤ tr.endTime

instance (tr : Trace) (t : Int) : Decidable (tr.covers t) := by
  unfold Trace.covers; infer_instance

/-- Boolean form of `covers`, used in decidable hypotheses. -/
def Trace.coversb (tr : Trace) (t : Int) : Bool := decide (tr.covers t)

/-- The sample value at tick `t`; 0 outside the span. -/
def Trace.valueAt (tr : Trace) (t : Int) : Rat :=
  if tr.covers t then tr.data.getD (t - tr.start).toNat 0 else 0

/-- Value of the last sample (0 for an empty trace). -/
def Trace.lastVal (tr : Trace) : Rat := tr.data.getLast?.getD 0

/-- Value of the first sample (0 for an empty trace). -/
def Trace.headVal (tr : Trace) : Rat := tr.data.head?.getD 0

/-- obspy `trim(a, b, pad=True, fill_value=0)`: the result spans exactly
[a, b], keeping covered samples and padding the rest with zeros. -/
def Trace.trimTo (tr : Trace) (a b : Int) : Trace :=
  { start := a
    data := (List.range (b - a + 1).toNat).map (fun (k : Nat) => tr.valueAt (a + (k : Int))) }

/-- obspy `slice(a, b)`: crop to [a, b] without padding. -/
def Trace.sliceTo (tr : Trace) (a b : Int) : Trace :=
  Trace.trimTo tr (max a tr.start) (min b tr.endTime)

/-- Value of the trace `Trace.__add__(method=1, interpolation_samples=0,
fill_value='interpolate')` produces at tick `t`, for `lt` the earlier-starting
and `rt` the later-starting trace: samples of the later trace win where it has
data, the earlier trace supplies the rest of its span, and a gap between the
two is linearly interpolated between `lt`'s last and `rt`'s first sample. -/
def mergeValueAt (lt rt : Trace) (t : Int) : Rat :=
  if rt.covers t then rt.valueAt t
  else if lt.covers t then lt.valueAt t
  else lt.lastVal + ((t - lt.endTime : Int) : Rat) * (rt.headVal - lt.lastVal) /
      ((rt.start - lt.endTime : Int) : Rat)

/-- obspy `__add__` of two traces with `lt.start ≤ rt.start` (method 1,
interpolation_samples 0, fill_value 'interpolate'). -/
def mergeTwo (lt rt : Trace) : Trace :=
  { start := lt.start
    data := (List.range ((max lt.endTime rt.endTime) - lt.start + 1).toNat).map
      (fun (k : Nat) => mergeValueAt lt rt (lt.start + (k : Int))) }

/-- obspy `Stream.merge` first sorts the two traces by starttime; on equal
starttimes the stable sort keeps the buffered (first-appended) trace first. -/
def mergeOriented (a b : Trace) : Trace :=
  if a.start ≤ b.start then mergeTwo a b else mergeTwo b a

lemma valueAt_of_not_covers {tr : Trace} {t : Int} (h : ¬ tr.covers t) :
    tr.valueAt t = 0 := by
  unfold Trace.valueAt; exact if_neg h

lemma getD_range_map (n : Nat) (f : Nat → Rat) (k : Nat) (hk : k < n) :
    ((List.range n).map f).getD k 0 = f k := by
  rw [List.getD_eq_getElem?_getD, List.getElem?_map, List.getElem?_range hk]
  rfl

lemma trimTo_start (tr : Trace) (a b : Int) : (tr.trimTo a b).start = a := rfl

lemma trimTo_length (tr : Trace) (a b : Int) :
    (tr.trimTo a b).data.length = (b - a + 1).toNat := by
  simp [Trace.trimTo]

lemma trimTo_endTime (tr : Trace) (a b : Int) (h : a ≤ b) :
    (tr.trimTo a b).endTime = b := by
  simp only [Trace.endTime, trimTo_length, trimTo_start]
  omega

lemma trimTo_valueAt (tr : Trace) (a b t : Int) (h1 : a ≤ t) (h2 : t ≤ b) :
    (tr.trimTo a b).valueAt t = tr.valueAt t := by
  have hab : a ≤ b := le_trans h1 h2
  have hcov : (tr.trimTo a b).covers t := by
    constructor
    · rw [trimTo_start]; exact h1
    · rw [trimTo_endTime tr a b hab]; exact h2
  rw [Trace.valueAt, if_pos hcov, trimTo_start]
  show ((List.range (b - a + 1).toNat).map
      (fun (k : Nat) => tr.valueAt (a + (k : Int)))).getD (t - a).toNat 0 = tr.valueAt t
  rw [getD_range_map _ _ _ (by omega)]
  congr 1
  omega

lemma mergeTwo_start (lt rt : Trace) : (mergeTwo lt rt).start = lt.start := rfl

lemma mergeTwo_endTime (lt rt : Trace) (h : lt.start - 1 ≤ max lt.endTime rt.endTime) :
    (mergeTwo lt rt).endTime = max lt.endTime rt.endTime := by
  simp only [Trace.endTime, mergeTwo, List.length_map, List.length_range]
  omega

lemma mergeTwo_valueAt (lt rt : Trace) (t : Int) (h1 : lt.start ≤ t)
    (h2 : t ≤ max lt.endTime rt.endTime) :
    (mergeTwo lt rt).valueAt t = mergeValueAt lt rt t := by
  have hcov : (mergeTwo lt rt).covers t := by
    constructor
    · exact h1
    · rw [mergeTwo_endTime lt rt (by omega)]; exact h2
  rw [Trace.valueAt, if_pos hcov, mergeTwo_start]
  show ((List.range ((max lt.endTime rt.endTime) - lt.start + 1).toNat).map
      (fun (k : Nat) => mergeValueAt lt rt (lt.start + (k : Int)))).getD (t - lt.start).toNat 0
      = mergeValueAt lt rt t
  rw [getD_range_map _ _ _ (by omega)]
  congr 1
  omega

lemma trimTo_trimTo (tr : Trace) (a b : Int) (hab : a ≤ b) :
    (tr.trimTo a b).trimTo a b = tr.trimTo a b := by
  show Trace.mk a _ = Trace.mk a _
  congr 1
  apply List.map_congr_left
  intro k hk
  rw [List.mem_range] at hk
  exact trimTo_valueAt tr a b (a + (k : Int)) (by omega) (by omega)

/-! Signal processing used by `on_data` (obspy / numpy / scipy defaults). -/

/-- Arithmetic mean (0 for an empty list, never consumed on one). -/
def mean (l : List Rat) : Rat := l.sum / (l.length : Rat)

/-- `detrend('linear')`: subtract the least-squares regression line
(scipy.signal.detrend, type='linear'). -/
def detrendLinear (l : List Rat) : List Rat :=
  let n : Rat := (l.length : Rat)
  let xbar : Rat := (n - 1) / 2
  let ybar : Rat := mean l
  let sxy : Rat := (l.enum.map (fun p => ((p.1 : Rat) - xbar) * (p.2 - ybar))).sum
  let sxx : Rat := (l.enum.map (fun p => ((p.1 : Rat) - xbar) * ((p.1 : Rat) - xbar))).sum
  let slope : Rat := if sxx = 0 then 0 else sxy / sxx
  l.enum.map (fun p => p.2 - (ybar + slope * ((p.1 : Rat) - xbar)))

/-- `detrend('demean')`: subtract the arithmetic mean. -/
def demean (l : List Rat) : List Rat := l.map (fun x => x - mean l)

/-- Lines 338-339: `trace.detrend('linear'); trace.detrend('demean')`. -/
def detrendTrace (tr : Trace) : Trace := ⟨tr.start, demean (detrendLinear tr.data)⟩

/-- Line 353: `trace.remove_response(inventory=..., output="VEL")`, modelled
as conversion of counts to velocity by the inventory's overall sensitivity. -/
def removeResponse (inv : Rat) (tr : Trace) : Trace :=
  ⟨tr.start, tr.data.map (fun x => x / inv)⟩

/-- Running part of scipy `cumtrapz`: `prev` is the previous input sample and
`acc` the accumulated integral. -/
def cumtrapzAux (dx : Rat) (prev acc : Rat) : List Rat → List Rat
  | [] => []
  | x :: xs =>
      (acc + dx * (prev + x) / 2) :: cumtrapzAux dx x (acc + dx * (prev + x) / 2) xs

/-- obspy `Trace.integrate()` default 'cumtrapz': cumulative trapezoidal
integral with sample spacing `dx`, first output sample 0, length preserved. -/
def cumtrapz (dx : Rat) : List Rat → List Rat
  | [] => []
  | x :: xs => 0 :: cumtrapzAux dx x 0 xs

/-- Interior and right-boundary part of numpy.gradient. -/
def npGradientMid (dx : Rat) : List Rat → List Rat
  | a :: b :: c :: rest => (c - a) / (2 * dx) :: npGradientMid dx (b :: c :: rest)
  | [a, b] => [(b - a) / dx]
  | _ => []

/-- obspy `Trace.differentiate()` default 'gradient': numpy.gradient with
sample spacing `dx` — one-sided differences at the two ends, central
differences inside.  numpy raises on fewer than two samples ([] here; the
caller models the raised exception). -/
def npGradient (dx : Rat) : List Rat → List Rat
  | [] => []
  | [_] => []
  | a :: b :: rest => (b - a) / dx :: npGradientMid dx (a :: b :: rest)

/-- Consecutive first differences scaled by the sample spacing.  This is the
SPEC's wording for the acceleration discretization ("first difference"), kept
for comparison with the source's numpy.gradient. -/
def firstDiff (dx : Rat) : List Rat → List Rat
  | a :: b :: rest => (b - a) / dx :: firstDiff dx (b :: rest)
  | _ => []

/-- `np.abs(arr).max()` (0 on an empty list, guarded by the caller). -/
def maxAbs (l : List Rat) : Rat := l.foldl (fun m x => max m |x|) 0

/-! The plotter state (`SeismicPlotter.__init__`, lines 24-83). -/

/-- A configured stream: (network, station, location, channel).  The source
keys its `streams` dict by the f-string "net.sta.loc.cha"; the tuple is the
same key (components never contain dots in this deployment). -/
abbrev StKey := String × String × String × String

/-- The station component of a stream tuple — the source indexes
`last_data_times`, `connection_status` and `current_values` by this bare
station code (lines 55-63, 330). -/
def staOf (k : StKey) : String := k.2.1

/-- One station's `current_values` entry (lines 58-63): peak velocity,
displacement and acceleration in micro-units, and the last update time. -/
structure MetricSnapshot where
  vel : Rat
  desp : Rat
  acel : Rat
  last_update : Option Int
deriving DecidableEq

/-- defaultdict default (lines 58-63). -/
def MetricSnapshot.default0 : MetricSnapshot := ⟨0, 0, 0, none⟩

/-- One SeedLink packet: trace stats (network, station, location, channel)
plus the waveform block. -/
structure SampleBlock where
  net : String
  sta : String
  loc : String
  cha : String
  wave : Trace
deriving DecidableEq

/-- Line 329: the stream key of an incoming trace. -/
def keyOf (b : SampleBlock) : StKey := (b.net, b.sta, b.loc, b.cha)

/-- Pointwise update of a map — one Python dict assignment. -/
def upd {κ α : Type} [DecidableEq κ] (f : κ → α) (k : κ) (v : α) : κ → α :=
  fun x => if x = k then v else f x

/-- The mutable state of a `SeismicPlotter` relevant to ingestion and
rendering.  `buffers k = none` models an empty `Stream()`; after a merge the
stream holds exactly one trace.  `inventories s = none` models a station
absent from the loaded inventories dict.  `rate` is the session sampling rate
in samples per second (ticks per second of the embedding). -/
structure PState where
  stations : List StKey
  buffers : StKey → Option Trace
  last_data_times : String → Option Int
  connection_status : String → Bool
  current_values : String → MetricSnapshot
  inventories : String → Option Rat
  window_seconds : Nat
  rate : Nat
  data_timeout : Int

/-- Lines 38-44: the constructor REPLACES the `stationxml_paths` argument
with this hard-coded station → path table before anything reads it. -/
def hardcodedPaths : String → Option String := fun s =>
  if s = "UIS09" then some "/net/sw/source/inventories/UIS09.xml"
  else if s = "UIS05" then some "/net/sw/source/inventories/UIS05.xml"
  else if s = "UIS03" then some "/net/sw/source/inventories/UIS03.xml"
  else if s = "UIS01" then some "/net/sw/source/inventories/UIS01.xml"
  else if s = "R8256" then some "/net/sw/source/inventories/R8256.xml"
  else none

/-- Lines 135-147 `load_inventories`: for every station code of the selected
streams, look up its path and read it; a missing path, a missing file or a
read error is only printed and the station is skipped.  `fs path` is the
filesystem: the inventory at `path`, or none if absent/unreadable. -/
def load_inventories (stations : List StKey) (paths : String → Option String)
    (fs : String → Option Rat) : String → Option Rat :=
  fun sta => if sta ∈ stations.map staOf then (paths sta).bind fs else none

/-- `SeismicPlotter.__init__` (lines 24-83) restricted to the modelled state.
The `stationxml_paths` argument is accepted and then ignored in favour of
`hardcodedPaths` (lines 38-44). -/
def initState (stations : List StKey) (stationxml_paths : String → Option String)
    (fs : String → Option Rat) (window_seconds rate : Nat) (data_timeout : Int) : PState :=
  { stations := stations
    buffers := fun _ => none
    last_data_times := fun _ => none
    connection_status := fun _ => false
    current_values := fun _ => MetricSnapshot.default0
    inventories := load_inventories stations hardcodedPaths fs
    window_seconds := window_seconds
    rate := rate
    data_timeout := data_timeout }

/-- `start` (lines 212-234): with an empty station list it prints and returns
(`none` — no session); otherwise it selects every configured stream and runs
the client.  No validation of response metadata happens here or earlier. -/
def start_subscribed (stations : List StKey) : Option (List StKey) :=
  if stations.isEmpty then none else some stations

/-! The SeedLink client `on_data` (lines 327-383) and the render-tick
liveness check (lines 274-276). -/

/-- Window length in ticks: `window_seconds` seconds at `rate` samples/s. -/
def winTicks (st : PState) : Nat := st.window_seconds * st.rate

/-- Lines 342-343: `streams[key].append(trace)` followed by
`streams[key].merge(method=1, fill_value='interpolate')`, applied to the
detrended incoming block.  An empty stream yields the block itself. -/
def mergedBuffer (st : PState) (blk : SampleBlock) : Trace :=
  match st.buffers (keyOf blk) with
  | none => detrendTrace blk.wave
  | some old => mergeOriented old (detrendTrace blk.wave)

/-- Line 348: `streams[key].trim(t_now - window_seconds, t_now, pad=True,
fill_value=0)`. -/
def trimmedBuffer (st : PState) (blk : SampleBlock) (now : Int) : Trace :=
  (mergedBuffer st blk).trimTo (now - (winTicks st : Int)) now

/-- Lines 353 and 356: response correction then
`señal = trace.trim(t_now - window_seconds, t_now, pad=True, fill_value=0)`.
When the pre-append stream was empty, the merged/trimmed buffer object in the
stream IS the local `trace` object (obspy append and single-trace merge keep
the object), so `remove_response` acts on the already window-trimmed trace;
otherwise the merge created a fresh trace and `remove_response` acts on the
detrended incoming block. -/
def senalOf (st : PState) (blk : SampleBlock) (now : Int) (inv : Rat) : Trace :=
  (removeResponse inv
      (if (st.buffers (keyOf blk)).isNone then trimmedBuffer st blk now
       else detrendTrace blk.wave)).trimTo (now - (winTicks st : Int)) now

/-- Line 358: `recorte = señal.slice(t_now - 10, t_now)` — the most recent
10-second sub-window (10 · rate ticks). -/
def metricSlice (st : PState) (blk : SampleBlock) (now : Int) (inv : Rat) : Trace :=
  (senalOf st blk now inv).sliceTo (now - 10 * (st.rate : Int)) now

/-- The trace left in `streams[key]` when `on_data` returns: the trimmed
counts buffer, except in the first-block-with-inventory case where the shared
object was further mutated by `remove_response` and the second trim. -/
def storedTrace (st : PState) (blk : SampleBlock) (now : Int) : Trace :=
  match st.inventories blk.sta with
  | none => trimmedBuffer st blk now
  | some inv =>
      if (st.buffers (keyOf blk)).isNone then senalOf st blk now inv
      else trimmedBuffer st blk now

/-- The labelled operations of the ingestion entry point, in the order the
source executes them. -/
inductive Step
  | touch | append | merge | trim | correct | update
deriving DecidableEq

/-- Exceptions `on_data` catches at line 382: the `KeyError` from
`inventories[station]` when the StationXML was never loaded (the spec's
ResponseMissing), and numpy's ValueError when `differentiate` gets fewer
than two samples. -/
inductive PErr
  | responseMissing | gradientTooShort
deriving DecidableEq

/-- `SeismicClient.on_data` (lines 327-383): state after the call, the
labelled operations executed, and the exception caught (if any).  Control
flow follows the source: unknown keys are ignored (line 332); the liveness
touch (lines 334-335) runs FIRST; then detrend, append, merge, trim; the
response correction raises ResponseMissing on a missing inventory, after the
buffer and liveness were already updated; metric updates run in the order
vel, desp, acel, last_update, so a differentiate failure leaves vel and desp
already written. -/
def onDataT (st : PState) (blk : SampleBlock) (now : Int) :
    PState × List Step × Option PErr :=
  if keyOf blk ∈ st.stations then
    let st1 : PState :=
      { st with last_data_times := upd st.last_data_times blk.sta (some now)
                connection_status := upd st.connection_status blk.sta true }
    let st2 : PState :=
      { st1 with buffers := upd st1.buffers (keyOf blk) (some (storedTrace st blk now)) }
    match st.inventories blk.sta with
    | none =>
        (st2, [Step.touch, Step.append, Step.merge, Step.trim], some PErr.responseMissing)
    | some inv =>
        let recorte := metricSlice st blk now inv
        if 0 < recorte.data.length then
          let cv := st2.current_values blk.sta
          if 2 ≤ recorte.data.length then
            let cvFull : MetricSnapshot :=
              { cv with
                vel := 1000000 * maxAbs recorte.data
                desp := 1000000 * maxAbs (cumtrapz (1 / (st.rate : Rat)) recorte.data)
                acel := 1000000 * maxAbs (npGradient (1 / (st.rate : Rat)) recorte.data)
                last_update := some now }
            ({ st2 with current_values := upd st2.current_values blk.sta cvFull },
             [Step.touch, Step.append, Step.merge, Step.trim, Step.correct, Step.update],
             none)
          else
            let cvPartial : MetricSnapshot :=
              { cv with
                vel := 1000000 * maxAbs recorte.data
                desp := 1000000 * maxAbs (cumtrapz (1 / (st.rate : Rat)) recorte.data) }
            ({ st2 with current_values := upd st2.current_values blk.sta cvPartial },
             [Step.touch, Step.append, Step.merge, Step.trim, Step.correct],
             some PErr.gradientTooShort)
        else
          (st2, [Step.touch, Step.append, Step.merge, Step.trim, Step.correct], none)
  else
    (st, [], none)

/-- State after `on_data`. -/
def on_data (st : PState) (blk : SampleBlock) (now : Int) : PState :=
  (onDataT st blk now).1

/-- Operations `on_data` executed, in order. -/
def onDataSteps (st : PState) (blk : SampleBlock) (now : Int) : List Step :=
  (onDataT st blk now).2.1

/-- Exception `on_data` caught, if any. -/
def onDataErr (st : PState) (blk : SampleBlock) (now : Int) : Option PErr :=
  (onDataT st blk now).2.2

/-- A sequence of `on_data` calls (the ingestion thread's loop). -/
def runCalls (st : PState) (calls : List (SampleBlock × Int)) : PState :=
  calls.foldl (fun s c => on_data s c.1 c.2) st

/-- The buffer stored for the block's stream key after `on_data`. -/
def bufferAfter (st : PState) (blk : SampleBlock) (now : Int) : Trace :=
  ((on_data st blk now).buffers (keyOf blk)).getD ⟨0, []⟩

/-- Lines 274-276 of `update_plot`, the only render-path liveness mutation:
for every configured station, if it has a last-data time older than
`data_timeout`, its connection flag is cleared.  Nothing else in the render
path writes liveness state. -/
def update_plot_liveness (st : PState) (now : Int) : PState :=
  { st with connection_status := fun s =>
      if s ∈ st.stations.map staOf then
        match st.last_data_times s with
        | some t => if now - t > st.data_timeout then false else st.connection_status s
        | none => st.connection_status s
      else st.connection_status s }

/-! The liveness state machine of spec §4.2, as the source implements it with
the pair (`last_data_times[sta]`, `connection_status[sta]`). -/

/-- One station's liveness state. -/
structure Liveness where
  last : Option Int
  conn : Bool
deriving DecidableEq

/-- Lines 55-56: initial state (no sample yet, not connected). -/
def Liveness.init : Liveness := ⟨none, false⟩

/-- Lines 334-335: a received sample records its arrival time and forces the
connected flag. -/
def Liveness.touch (_l : Liveness) (t : Int) : Liveness := ⟨some t, true⟩

/-- Lines 275-276: the render-tick evaluation clears the connected flag
exactly when a recorded last-sample time is older than the timeout. -/
def Liveness.evaluate (l : Liveness) (now timeout : Int) : Liveness :=
  match l.last with
  | some t => if now - t > timeout then { l with conn := false } else l
  | none => l

/-- The spec's three liveness states. -/
inductive LState
  | unknown | connected | stale
deriving DecidableEq

/-- Mapping of the implementation pair onto the spec's states: CONNECTED when
the flag is set, otherwise UNKNOWN before any sample and STALE after one. -/
def Liveness.lstate (l : Liveness) : LState :=
  if l.conn then LState.connected
  else match l.last with
       | none => LState.unknown
       | some _ => LState.stale

/-- The liveness pair the plotter keeps for station code `s`. -/
def livenessOf (st : PState) (s : String) : Liveness :=
  ⟨st.last_data_times s, st.connection_status s⟩

/-! Concrete session fixtures used by witnesses and counterexamples. -/

/-- One configured stream for station UIS09 (hard-coded path table entry). -/
def exStations : List StKey := [("UX", "UIS09", "00", "EHZ")]

/-- A filesystem on which every present path reads successfully, with overall
sensitivity 1. -/
def exFs : String → Option Rat := fun _ => some 1

/-- Session at 1 Hz with a 10 s window and 30 s timeout. -/
def exSt : PState := initState exStations (fun _ => none) exFs 10 1 30

/-- A 4-sample block for UIS09 covering ticks 7..10. -/
def exBlk : SampleBlock := ⟨"UX", "UIS09", "00", "EHZ", ⟨7, [0, 0, 6, 6]⟩⟩

/-- Two streams whose station codes collide ("S1") but networks differ. -/
def exStations2 : List StKey := [("UX", "S1", "00", "EHZ"), ("VY", "S1", "00", "EHZ")]

/-- Session over the colliding streams; no inventory is loadable ("S1" has no
hard-coded path). -/
def exSt2 : PState := initState exStations2 (fun _ => none) (fun _ => none) 2 1 30

/-- A 2-sample block arriving on the UX-network stream of station S1. -/
def exBlk2 : SampleBlock := ⟨"UX", "S1", "00", "EHZ", ⟨3, [1, 2]⟩⟩

/-- A later 1-sample block on the same UX stream. -/
def exBlk2b : SampleBlock := ⟨"UX", "S1", "00", "EHZ", ⟨6, [4]⟩⟩

/-! Structural lemmas about `on_data`. -/

lemma onData_const_fields (st : PState) (blk : SampleBlock) (now : Int) :
    (on_data st blk now).inventories = st.inventories
  ∧ (on_data st blk now).stations = st.stations
  ∧ (on_data st blk now).window_seconds = st.window_seconds
  ∧ (on_data st blk now).rate = st.rate
  ∧ (on_data st blk now).data_timeout = st.data_timeout := by
  unfold on_data onDataT
  by_cases hm : keyOf blk ∈ st.stations
  · simp only [if_pos hm]
    cases hinv : st.inventories blk.sta
    · exact ⟨rfl, rfl, rfl, rfl, rfl⟩
    · dsimp only
      split
      · split
        · exact ⟨rfl, rfl, rfl, rfl, rfl⟩
        · exact ⟨rfl, rfl, rfl, rfl, rfl⟩
      · exact ⟨rfl, rfl, rfl, rfl, rfl⟩
  · simp [if_neg hm]

lemma onData_liveness_fields (st : PState) (blk : SampleBlock) (now : Int) :
    (on_data st blk now).last_data_times =
      (if keyOf blk ∈ st.stations then upd st.last_data_times blk.sta (some now)
       else st.last_data_times)
  ∧ (on_data st blk now).connection_status =
      (if keyOf blk ∈ st.stations then upd st.connection_status blk.sta true
       else st.connection_status) := by
  unfold on_data onDataT
  by_cases hm : keyOf blk ∈ st.stations
  · simp only [if_pos hm]
    cases hinv : st.inventories blk.sta
    · exact ⟨rfl, rfl⟩
    · dsimp only
      split
      · split
        · exact ⟨rfl, rfl⟩
        · exact ⟨rfl, rfl⟩
      · exact ⟨rfl, rfl⟩
  · simp [if_neg hm]

lemma onData_buffers (st : PState) (blk : SampleBlock) (now : Int)
    (hsub : keyOf blk ∈ st.stations) :
    (on_data st blk now).buffers =
      upd st.buffers (keyOf blk) (some (storedTrace st blk now)) := by
  unfold on_data onDataT
  simp only [if_pos hsub]
  cases hinv : st.inventories blk.sta
  · rfl
  · dsimp only
    split
    · split
      · rfl
      · rfl
    · rfl

lemma onData_cv_missing (st : PState) (blk : SampleBlock) (now : Int)
    (hmiss : st.inventories blk.sta = none) :
    (on_data st blk now).current_values = st.current_values := by
  unfold on_data onDataT
  by_cases hm : keyOf blk ∈ st.stations
  · simp only [if_pos hm, hmiss]
  · simp only [if_neg hm]

lemma onData_cv_ne (st : PState) (blk : SampleBlock) (now : Int) (s : String)
    (hs : s ≠ blk.sta) :
    (on_data st blk now).current_values s = st.current_values s := by
  unfold on_data onDataT
  by_cases hm : keyOf blk ∈ st.stations
  · simp only [if_pos hm]
    cases hinv : st.inventories blk.sta
    · rfl
    · dsimp only
      split
      · split
        · show upd st.current_values blk.sta _ s = st.current_values s
          unfold upd
          rw [if_neg hs]
        · show upd st.current_values blk.sta _ s = st.current_values s
          unfold upd
          rw [if_neg hs]
      · rfl
  · simp only [if_neg hm]

/-! C10 -/

/-- C10: the `stationxml_paths` constructor argument has no effect — the
constructor replaces it with the hard-coded station → path table before the
inventories are loaded, so two sessions differing only in that argument are
identical states. -/
theorem stationxml_paths_argument_ignored (stations : List StKey)
    (p1 p2 : String → Option String) (fs : String → Option Rat)
    (window_seconds rate : Nat) (data_timeout : Int) :
    initState stations p1 fs window_seconds rate data_timeout =
    initState stations p2 fs window_seconds rate data_timeout := rfl

/-! C8 -/

/-- C8: `trim` is idempotent — for every buffer state, time `now` and window
of `W` ticks, trimming twice with the same arguments yields a buffer with the
same start, timestamps and sample values as trimming once. -/
theorem trim_idempotent (tr : Trace) (now : Int) (W : Nat) :
    (tr.trimTo (now - (W : Int)) now).trimTo (now - (W : Int)) now =
      tr.trimTo (now - (W : Int)) now :=
  trimTo_trimTo tr (now - (W : Int)) now (by omega)

/-! C5 -/

/-- C5: the liveness state machine — the initial state is UNKNOWN; `touch t`
records `t` and forces CONNECTED (also from STALE, i.e. recovery);
`evaluate now` turns a touched station STALE exactly when
`now - last > timeout` (so `t0 + timeout + 1` is STALE and `t0 + timeout - 1`
stays CONNECTED); and the only liveness mutations of the pipeline are the
touch inside `on_data` (at the block's station code, when subscribed) and the
evaluation inside the render tick (at configured station codes). -/
theorem liveness_state_machine (l : Liveness) (t0 t now timeout : Int)
    (st : PState) (blk : SampleBlock) (now2 : Int) (s : String) :
    Liveness.init.lstate = LState.unknown
  ∧ ((l.touch t).last = some t ∧ (l.touch t).lstate = LState.connected)
  ∧ ((l.touch t0).evaluate now timeout).lstate =
      (if now - t0 > timeout then LState.stale else LState.connected)
  ∧ ((l.touch t0).evaluate (t0 + timeout + 1) timeout).lstate = LState.stale
  ∧ ((l.touch t0).evaluate (t0 + timeout - 1) timeout).lstate = LState.connected
  ∧ livenessOf (on_data st blk now2) s =
      (if keyOf blk ∈ st.stations ∧ s = blk.sta
       then (livenessOf st s).touch now2 else livenessOf st s)
  ∧ livenessOf (update_plot_liveness st now2) s =
      (if s ∈ st.stations.map staOf
       then (livenessOf st s).evaluate now2 st.data_timeout else livenessOf st s) := by
  refine ⟨rfl, ⟨rfl, rfl⟩, ?_, ?_, ?_, ?_, ?_⟩
  · unfold Liveness.touch Liveness.evaluate Liveness.lstate
    dsimp only
    split
    · simp
    · simp
  · unfold Liveness.touch Liveness.evaluate Liveness.lstate
    have h : t0 + timeout + 1 - t0 > timeout := by omega
    simp [h]
  · unfold Liveness.touch Liveness.evaluate Liveness.lstate
    have h : ¬ (t0 + timeout - 1 - t0 > timeout) := by omega
    simp [h]
  · have h1 := (onData_liveness_fields st blk now2).1
    have h2 := (onData_liveness_fields st blk now2).2
    unfold livenessOf Liveness.touch
    rw [h1, h2]
    by_cases hm : keyOf blk ∈ st.stations
    · simp only [if_pos hm]
      by_cases hs : s = blk.sta
      · simp [upd, hs, hm]
      · simp [upd, hs, hm]
    · simp [hm]
  · unfold livenessOf update_plot_liveness Liveness.evaluate
    dsimp only
    by_cases hmem : s ∈ st.stations.map staOf
    · simp only [if_pos hmem]
      cases hl : st.last_data_times s
      · rfl
      · dsimp only
        split
        · rfl
        · rfl
    · simp only [if_neg hmem]

lemma onDataErr_missing (st : PState) (blk : SampleBlock) (now : Int)
    (hsub : keyOf blk ∈ st.stations) (hmiss : st.inventories blk.sta = none) :
    onDataErr st blk now = some PErr.responseMissing := by
  unfold onDataErr onDataT
  simp only [if_pos hsub, hmiss]

lemma runCalls_cv_missing (X : String) (calls : List (SampleBlock × Int)) :
    ∀ st : PState, st.inventories X = none → (∀ c ∈ calls, c.1.sta = X) →
      (runCalls st calls).current_values = st.current_values
      ∧ (runCalls st calls).inventories = st.inventories := by
  induction calls with
  | nil => intro st _ _; exact ⟨rfl, rfl⟩
  | cons c rest ih =>
      intro st h1 h2
      have hc : c.1.sta = X := h2 c (List.mem_cons_self c rest)
      have hmiss : st.inventories c.1.sta = none := by rw [hc]; exact h1
      have e1 := onData_cv_missing st c.1 c.2 hmiss
      have e2 := (onData_const_fields st c.1 c.2).1
      have hrec := ih (on_data st c.1 c.2) (by rw [e2]; exact h1)
        (fun d hd => h2 d (List.mem_cons_of_mem c hd))
      constructor
      · show (runCalls (on_data st c.1 c.2) rest).current_values = st.current_values
        rw [hrec.1, e1]
      · show (runCalls (on_data st c.1 c.2) rest).inventories = st.inventories
        rw [hrec.2, e2]

/-! C1 -/

/-- C1: for a station X with no loaded response inventory, every subscribed
sample block for X makes `on_data` fail with ResponseMissing (the caught
`KeyError` of line 353); X's metric snapshot is left unchanged by that call
and by every later call for X (the inventories dict is never reloaded), raw
counts are never written into the snapshot, and the snapshot of every other
station is untouched. -/
theorem onData_responseMissing_freezes_metrics (st : PState) (X Y : String)
    (blk0 : SampleBlock) (now0 : Int) (rest : List (SampleBlock × Int))
    (hmiss : st.inventories X = none)
    (hb : blk0.sta = X)
    (hsub : keyOf blk0 ∈ st.stations)
    (hrest : rest.all (fun c => c.1.sta == X) = true) :
    onDataErr st blk0 now0 = some PErr.responseMissing
  ∧ (runCalls st ((blk0, now0) :: rest)).current_values X = st.current_values X
  ∧ (runCalls st ((blk0, now0) :: rest)).current_values Y = st.current_values Y := by
  have hmiss0 : st.inventories blk0.sta = none := by rw [hb]; exact hmiss
  have hall : ∀ c ∈ (blk0, now0) :: rest, c.1.sta = X := by
    intro c hc
    rcases List.mem_cons.mp hc with h | h
    · rw [h]; exact hb
    · exact eq_of_beq (List.all_eq_true.mp hrest c h)
  have main := runCalls_cv_missing X ((blk0, now0) :: rest) st hmiss hall
  exact ⟨onDataErr_missing st blk0 now0 hsub hmiss0,
    by rw [main.1], by rw [main.1]⟩

/-- C1 witness: the colliding-station session never loads an inventory for
"S1"; two blocks on the UX stream leave all metric snapshots untouched. -/
theorem onData_responseMissing_freezes_metrics_witness :
    (exSt2.inventories "S1" = none
     ∧ exBlk2.sta = "S1"
     ∧ keyOf exBlk2 ∈ exSt2.stations
     ∧ [((exBlk2b, (8 : Int)))].all (fun c => c.1.sta == "S1") = true)
  ∧ onDataErr exSt2 exBlk2 5 = some PErr.responseMissing
  ∧ (runCalls exSt2 [(exBlk2, 5), (exBlk2b, 8)]).current_values "S1" =
      exSt2.current_values "S1"
  ∧ (runCalls exSt2 [(exBlk2, 5), (exBlk2b, 8)]).current_values "B1" =
      exSt2.current_values "B1" := by
  have h := onData_responseMissing_freezes_metrics exSt2 "S1" "B1" exBlk2 5
    [(exBlk2b, 8)] (by decide) (by decide) (by decide) (by decide)
  exact ⟨⟨by decide, by decide, by decide, by decide⟩, h.1, h.2.1, h.2.2⟩

/-! C9 -/

/-- C9 counterexample: per-station liveness is NOT keyed by network.station.
The two configured streams UX.S1.00.EHZ and VY.S1.00.EHZ differ in network
and share the station code; a block arriving only on the UX stream flips the
connection flag and last-data time that the VY stream's display row reads —
the claimed per-StationKey distinctness fails at this input. -/
theorem station_keying_shared_across_networks :
    ((("UX" : String) == "VY") = false)
  ∧ staOf ("UX", "S1", "00", "EHZ") = staOf ("VY", "S1", "00", "EHZ")
  ∧ exSt2.connection_status (staOf ("VY", "S1", "00", "EHZ")) = false
  ∧ (on_data exSt2 exBlk2 5).connection_status (staOf ("VY", "S1", "00", "EHZ")) = true
  ∧ (on_data exSt2 exBlk2 5).last_data_times (staOf ("VY", "S1", "00", "EHZ")) = some 5 := by
  refine ⟨by decide, by decide, by decide, ?_, ?_⟩ <;> decide

/-- C9 amended: per-station liveness and metric state is keyed by the BARE
station code (lines 55-63, 330): any two stream keys with equal station
components — regardless of network — read the same tracker and snapshot, and
`on_data` mutates no per-station entry other than the incoming block's
station code. -/
theorem station_state_keyed_by_code (st : PState) (k1 k2 : StKey)
    (blk : SampleBlock) (now : Int) (s : String)
    (h12 : staOf k1 = staOf k2)
    (hs : (s == blk.sta) = false) :
    (livenessOf st (staOf k1) = livenessOf st (staOf k2)
     ∧ st.current_values (staOf k1) = st.current_values (staOf k2))
  ∧ ((on_data st blk now).last_data_times s = st.last_data_times s
     ∧ (on_data st blk now).connection_status s = st.connection_status s
     ∧ (on_data st blk now).current_values s = st.current_values s) := by
  have hsne : s ≠ blk.sta := by
    intro he
    rw [he] at hs
    simp at hs
  refine ⟨⟨by rw [h12], by rw [h12]⟩, ?_, ?_, onData_cv_ne st blk now s hsne⟩
  · rw [(onData_liveness_fields st blk now).1]
    split
    · unfold upd
      rw [if_neg hsne]
    · rfl
  · rw [(onData_liveness_fields st blk now).2]
    split
    · unfold upd
      rw [if_neg hsne]
    · rfl

/-- C9 amended witness at the colliding-station session. -/
theorem station_state_keyed_by_code_witness :
    (staOf ("UX", "S1", "00", "EHZ") = staOf ("VY", "S1", "00", "EHZ")
     ∧ ((("Q9" : String) == exBlk2.sta) = false))
  ∧ livenessOf exSt2 (staOf ("UX", "S1", "00", "EHZ")) =
      livenessOf exSt2 (staOf ("VY", "S1", "00", "EHZ"))
  ∧ (on_data exSt2 exBlk2 5).current_values "Q9" = exSt2.current_values "Q9" := by
  have h := station_state_keyed_by_code exSt2 ("UX", "S1", "00", "EHZ")
    ("VY", "S1", "00", "EHZ") exBlk2 5 "Q9" (by decide) (by decide)
  exact ⟨⟨by decide, by decide⟩, h.1.1, h.2.2.2⟩

/-! C2 -/

/-- The order of ingestion steps the SPEC claims:
append → merge → trim → liveness touch → response-correct → metric update. -/
def c2ClaimedOrder : List Step :=
  [Step.append, Step.merge, Step.trim, Step.touch, Step.correct, Step.update]

/-- The order the source executes (lines 334-373): the liveness touch comes
first, before the buffer is appended, merged and trimmed. -/
def c2ActualOrder : List Step :=
  [Step.touch, Step.append, Step.merge, Step.trim, Step.correct, Step.update]

/-- C2 counterexample: on a successful concrete ingestion the executed step
sequence is touch, append, merge, trim, correct, update — not the claimed
append, merge, trim, touch, correct, update; the liveness touch precedes the
buffer operations rather than following them. -/
theorem onData_step_order_claim_refuted :
    (onDataSteps exSt exBlk 10 = c2ClaimedOrder) = False
  ∧ onDataSteps exSt exBlk 10 = c2ActualOrder := by
  constructor
  · exact eq_false (by decide)
  · decide

/-- C2 amended: for every subscribed stream key and sample block whose
response correction and metric computation succeed, the ingestion entry point
performs exactly liveness touch, append, merge, trim, response correction,
metric update — in that order, with the touch first. -/
theorem onData_step_order (st : PState) (blk : SampleBlock) (now : Int) (inv : Rat)
    (hsub : keyOf blk ∈ st.stations)
    (hinv : st.inventories blk.sta = some inv)
    (hlen : 2 ≤ (metricSlice st blk now inv).data.length) :
    onDataSteps st blk now = c2ActualOrder := by
  unfold onDataSteps onDataT
  simp only [if_pos hsub, hinv]
  rw [if_pos (show 0 < (metricSlice st blk now inv).data.length by omega), if_pos hlen]
  rfl

/-- C2 amended witness at the UIS09 fixture. -/
theorem onData_step_order_witness :
    (keyOf exBlk ∈ exSt.stations
     ∧ exSt.inventories exBlk.sta = some 1
     ∧ 2 ≤ (metricSlice exSt exBlk 10 1).data.length)
  ∧ onDataSteps exSt exBlk 10 = c2ActualOrder := by
  refine ⟨⟨by decide, by decide, by decide⟩, ?_⟩
  exact onData_step_order exSt exBlk 10 1 (by decide) (by decide) (by decide)

/-! C7 -/

/-- C7 amended: for every accepted sample with a loaded inventory (and at
least two samples in the sub-window, or numpy raises), the snapshot is
recomputed wholly from the response-corrected velocity trace restricted to
the most recent 10-second sub-window: velocity_peak = max|v|·10⁶,
displacement_peak = max|cumulative trapezoidal ∫v|·10⁶, and
acceleration_peak = max|numpy.gradient v|·10⁶ — central differences, not the
first differences the spec claims. -/
theorem metric_formulas (st : PState) (blk : SampleBlock) (now : Int) (inv : Rat)
    (hsub : keyOf blk ∈ st.stations)
    (hinv : st.inventories blk.sta = some inv)
    (hlen : 2 ≤ (metricSlice st blk now inv).data.length) :
    (on_data st blk now).current_values blk.sta =
      { vel := 1000000 * maxAbs (metricSlice st blk now inv).data
        desp := 1000000 * maxAbs (cumtrapz (1 / (st.rate : Rat)) (metricSlice st blk now inv).data)
        acel := 1000000 * maxAbs (npGradient (1 / (st.rate : Rat)) (metricSlice st blk now inv).data)
        last_update := some now } := by
  unfold on_data onDataT
  simp only [if_pos hsub, hinv]
  rw [if_pos (show 0 < (metricSlice st blk now inv).data.length by omega), if_pos hlen]
  show upd st.current_values blk.sta _ blk.sta = _
  unfold upd
  rw [if_pos rfl]

unseal Rat.add Rat.mul Rat.inv Rat.sub in
set_option maxRecDepth 100000 in
/-- C7 amended witness: the UIS09 fixture's snapshot is exactly the three
scaled peaks of the corrected 10-second sub-window. -/
theorem metric_formulas_witness :
    (keyOf exBlk ∈ exSt.stations
     ∧ exSt.inventories exBlk.sta = some 1
     ∧ 2 ≤ (metricSlice exSt exBlk 10 1).data.length)
  ∧ (on_data exSt exBlk 10).current_values "UIS09" =
      { vel := 1800000, desp := 300000, acel := 2400000, last_update := some 10 } := by
  refine ⟨⟨by decide, by decide, by decide⟩, ?_⟩
  have h : (on_data exSt exBlk 10).current_values "UIS09" =
      { vel := 1000000 * maxAbs (metricSlice exSt exBlk 10 1).data
        desp := 1000000 * maxAbs (cumtrapz (1 / (exSt.rate : Rat)) (metricSlice exSt exBlk 10 1).data)
        acel := 1000000 * maxAbs (npGradient (1 / (exSt.rate : Rat)) (metricSlice exSt exBlk 10 1).data)
        last_update := some 10 } :=
    metric_formulas exSt exBlk 10 1 (by decide) (by decide) (by decide)
  rw [h]
  decide

unseal Rat.add Rat.mul Rat.inv Rat.sub in
set_option maxRecDepth 100000 in
/-- C7 counterexample: the claimed acceleration discretization ("first
difference") disagrees with the source's numpy.gradient on the UIS09
fixture — the stored acceleration peak is 2400000 µ-units while the peak of
the first-difference derivative of the same corrected sub-window is 3600000,
so acceleration_peak = max|first difference|·10⁶ is false. -/
theorem acceleration_first_difference_refuted :
    ((on_data exSt exBlk 10).current_values "UIS09").acel = 2400000
  ∧ 1000000 * maxAbs (firstDiff (1 / (exSt.rate : Rat)) (metricSlice exSt exBlk 10 1).data) =
      3600000 := by
  constructor
  · decide
  · decide

lemma removeResponse_valueAt (inv : Rat) (tr : Trace) (t : Int) :
    (removeResponse inv tr).valueAt t = tr.valueAt t / inv := by
  unfold removeResponse
  by_cases hc : tr.covers t
  · have hc2 : (Trace.mk tr.start (tr.data.map (fun x => x / inv))).covers t := by
      unfold Trace.covers Trace.endTime at hc ⊢
      simpa using hc
    rw [Trace.valueAt, Trace.valueAt, if_pos hc2, if_pos hc]
    have hk : (t - tr.start).toNat < tr.data.length := by
      rcases hc with ⟨hA, hB⟩
      unfold Trace.endTime at hB
      omega
    dsimp only
    rw [List.getD_eq_getElem?_getD, List.getD_eq_getElem?_getD, List.getElem?_map,
      List.getElem?_eq_getElem hk]
    rfl
  · have hc2 : ¬ (Trace.mk tr.start (tr.data.map (fun x => x / inv))).covers t := by
      unfold Trace.covers Trace.endTime at hc ⊢
      simpa using hc
    rw [Trace.valueAt, Trace.valueAt, if_neg hc2, if_neg hc, zero_div]

lemma window_trim_span (base : Trace) (now : Int) (w : Nat) :
    (base.trimTo (now - (w : Int)) now).start = now - (w : Int)
  ∧ (base.trimTo (now - (w : Int)) now).endTime = now
  ∧ (base.trimTo (now - (w : Int)) now).data.length = w + 1 := by
  refine ⟨trimTo_start _ _ _, trimTo_endTime _ _ _ (by omega), ?_⟩
  rw [trimTo_length]
  omega

/-! C4 -/

/-- C4: after ingestion the stored buffer spans exactly the window of
`window_seconds · rate` ticks ending at `now` — samples outside
[now − W, now] are gone, the span never shrinks, and every tick of the window
not covered by the merged data holds 0 (zero padding at the edges; interior
gaps were already filled by the merge), regardless of gaps in the input. -/
theorem trim_window_span (st : PState) (blk : SampleBlock) (now t : Int)
    (hsub : keyOf blk ∈ st.stations)
    (h1 : now - (winTicks st : Int) ≤ t) (h2 : t ≤ now)
    (h3 : (mergedBuffer st blk).coversb t = false) :
    (bufferAfter st blk now).start = now - (winTicks st : Int)
  ∧ (bufferAfter st blk now).endTime = now
  ∧ (bufferAfter st blk now).data.length = winTicks st + 1
  ∧ (bufferAfter st blk now).valueAt t = 0 := by
  have hnc : ¬ (mergedBuffer st blk).covers t := of_decide_eq_false h3
  have hb : bufferAfter st blk now = storedTrace st blk now := by
    unfold bufferAfter
    rw [onData_buffers st blk now hsub]
    unfold upd
    rw [if_pos rfl]
    rfl
  rw [hb]
  unfold storedTrace
  cases hinv : st.inventories blk.sta
  · unfold trimmedBuffer
    refine ⟨(window_trim_span _ now (winTicks st)).1,
      (window_trim_span _ now (winTicks st)).2.1,
      (window_trim_span _ now (winTicks st)).2.2, ?_⟩
    rw [trimTo_valueAt _ _ _ _ h1 h2]
    exact valueAt_of_not_covers hnc
  · dsimp only
    by_cases hfb : (st.buffers (keyOf blk)).isNone = true
    · rw [if_pos hfb]
      unfold senalOf
      rw [if_pos hfb]
      refine ⟨(window_trim_span _ now (winTicks st)).1,
        (window_trim_span _ now (winTicks st)).2.1,
        (window_trim_span _ now (winTicks st)).2.2, ?_⟩
      rw [trimTo_valueAt _ _ _ _ h1 h2, removeResponse_valueAt]
      unfold trimmedBuffer
      rw [trimTo_valueAt _ _ _ _ h1 h2, valueAt_of_not_covers hnc, zero_div]
    · rw [if_neg hfb]
      unfold trimmedBuffer
      refine ⟨(window_trim_span _ now (winTicks st)).1,
        (window_trim_span _ now (winTicks st)).2.1,
        (window_trim_span _ now (winTicks st)).2.2, ?_⟩
      rw [trimTo_valueAt _ _ _ _ h1 h2]
      exact valueAt_of_not_covers hnc

/-- C4 witness: a 2-sample block at ticks 3..4 ingested at now = 10 with a
2-second window leaves a buffer spanning exactly ticks 8..10, zero at the
uncovered tick 9. -/
theorem trim_window_span_witness :
    (keyOf exBlk2 ∈ exSt2.stations
     ∧ (10 : Int) - (winTicks exSt2 : Int) ≤ 9 ∧ (9 : Int) ≤ 10
     ∧ (mergedBuffer exSt2 exBlk2).coversb 9 = false)
  ∧ (bufferAfter exSt2 exBlk2 10).start = 10 - (winTicks exSt2 : Int)
  ∧ (bufferAfter exSt2 exBlk2 10).endTime = 10
  ∧ (bufferAfter exSt2 exBlk2 10).data.length = winTicks exSt2 + 1
  ∧ (bufferAfter exSt2 exBlk2 10).valueAt 9 = 0 := by
  have h := trim_window_span exSt2 exBlk2 10 9 (by decide) (by decide) (by decide) (by decide)
  exact ⟨⟨by decide, by decide, by decide, by decide⟩, h.1, h.2.1, h.2.2.1, h.2.2.2⟩

/-! C3 -/

/-- The zero-fill clause of the C3 claim, phrased from the spec's words: with
a configured max-gap of `G` ticks, every merged gap of at least `G` missing
samples is filled with zeros.  (The source's merge has no max-gap at all.) -/
def mergeGapZeroFillClaim (G : Nat) : Prop :=
  ∀ lt rt : Trace, lt.data ≠ [] → rt.data ≠ [] →
    lt.endTime + 1 < rt.start →
    (G : Int) ≤ rt.start - lt.endTime - 1 →
    ∀ t : Int, lt.endTime < t → t < rt.start → (mergeTwo lt rt).valueAt t = 0

/-- Single sample of value 2 at tick 0 — the block before the gap. -/
def gapLeft : Trace := ⟨0, [2]⟩

/-- Single sample of value 2 at tick G + 2, leaving a gap of G + 1 missing
samples after `gapLeft`. -/
def gapRight (G : Nat) : Trace := ⟨(G : Int) + 2, [2]⟩

lemma gapLeft_endTime : gapLeft.endTime = 0 := by decide

lemma gapRight_start (G : Nat) : (gapRight G).start = (G : Int) + 2 := rfl

/-- C3 counterexample: no configured max-gap exists for which long gaps are
zero-filled — `merge(method=1, fill_value='interpolate')` linearly
interpolates EVERY gap.  For any candidate `G`, merging two single-sample
blocks of value 2 separated by G + 1 missing samples puts the interpolated
value 2, not 0, at the first gap tick. -/
theorem merge_gap_zero_fill_refuted : (∃ G : Nat, mergeGapZeroFillClaim G) = False := by
  apply eq_false
  rintro ⟨G, h⟩
  have hGnn : (0 : Int) ≤ (G : Int) := Int.natCast_nonneg G
  have h2 := h gapLeft (gapRight G) (by decide) (by simp [gapRight])
    (by rw [gapLeft_endTime, gapRight_start]; omega)
    (by rw [gapLeft_endTime, gapRight_start]; omega)
    1
    (by rw [gapLeft_endTime]; omega)
    (by rw [gapRight_start]; omega)
  have hb2 : (1 : Int) ≤ max gapLeft.endTime (gapRight G).endTime := by
    have he : (gapRight G).endTime = (G : Int) + 2 := by
      unfold gapRight Trace.endTime
      simp
    rw [he]
    exact le_trans (by omega) (le_max_right _ _)
  have h3 : (mergeTwo gapLeft (gapRight G)).valueAt 1 = 2 := by
    rw [mergeTwo_valueAt gapLeft (gapRight G) 1 (by decide) hb2]
    unfold mergeValueAt
    have hR : ¬ (gapRight G).covers 1 := by
      rintro ⟨hA, -⟩
      rw [gapRight_start] at hA
      omega
    have hL : ¬ gapLeft.covers 1 := by decide
    rw [if_neg hR, if_neg hL]
    have hlv : gapLeft.lastVal = 2 := by decide
    have hhv : (gapRight G).headVal = 2 := rfl
    rw [hlv, hhv, gapLeft_endTime]
    norm_num
  rw [h2] at h3
  norm_num at h3

/-- C3 amended: in a merge of the buffered block `old` with a newer block
`new` (`old.start ≤ new.start`), the result spans from `old.start` to the
later of the two ends; at every tick the newer block covers — coincident
timestamps included — the merged buffer holds the newer block's value; ticks
only the older block covers keep its value; and every tick of a gap, however
long, is linearly interpolated between the older block's last and the newer
block's first sample (no max-gap exists; zeros appear only at window edges
via trim). -/
theorem merge_overlap_and_gap_semantics (old new : Trace) (t : Int)
    (hor : old.start ≤ new.start)
    (h1 : old.start ≤ t) (h2 : t ≤ max old.endTime new.endTime) :
    (mergeOriented old new).start = old.start
  ∧ (mergeOriented old new).endTime = max old.endTime new.endTime
  ∧ (mergeOriented old new).valueAt t =
      (if new.covers t then new.valueAt t
       else if old.covers t then old.valueAt t
       else old.lastVal + ((t - old.endTime : Int) : Rat) * (new.headVal - old.lastVal) /
           ((new.start - old.endTime : Int) : Rat)) := by
  unfold mergeOriented
  rw [if_pos hor]
  have hspan : old.start - 1 ≤ max old.endTime new.endTime :=
    le_trans (by omega) (le_trans h1 h2)
  refine ⟨mergeTwo_start old new, mergeTwo_endTime old new hspan, ?_⟩
  rw [mergeTwo_valueAt old new t h1 h2]
  rfl

/-- C3 amended witness: newer block ⟨1, [5, 6]⟩ overlapping the tail of
older ⟨0, [1, 2]⟩ — at the coincident tick 1 the merged value is the newer
block's 5. -/
theorem merge_overlap_and_gap_semantics_witness :
    ((Trace.mk 0 [1, 2]).start ≤ (Trace.mk 1 [5, 6]).start
     ∧ (Trace.mk 0 [1, 2]).start ≤ 1
     ∧ (1 : Int) ≤ max (Trace.mk 0 [1, 2]).endTime (Trace.mk 1 [5, 6]).endTime)
  ∧ (mergeOriented ⟨0, [1, 2]⟩ ⟨1, [5, 6]⟩).valueAt 1 = 5 := by
  have h := merge_overlap_and_gap_semantics ⟨0, [1, 2]⟩ ⟨1, [5, 6]⟩ 1
    (by decide) (by decide) (by decide)
  refine ⟨⟨by decide, by decide, by decide⟩, ?_⟩
  rw [h.2.2]
  decide

/-! C6 -/

/-- A selection whose only station has no response path anywhere. -/
def c6Stations : List StKey := [("UX", "A1", "00", "EHZ")]

/-- C6 counterexample: a selection whose station lacks usable response
metadata is NOT rejected — `load_inventories` merely prints and skips the
station, `start` subscribes every selected stream anyway, and the
missing-response configuration reaches the running pipeline (each later
sample then fails individually, per C1). -/
theorem missing_response_reaches_pipeline :
    (initState c6Stations (fun _ => none) (fun _ => some 1) 2 1 30).inventories "A1" = none
  ∧ start_subscribed c6Stations = some c6Stations := by
  exact ⟨by decide, by decide⟩

/-- C6 amended: construction performs no response validation at all — a
station whose path table entry resolves to no readable inventory is only
skipped at load time (its inventories entry is none), and `start` opens the
subscription for every selected stream regardless, the empty selection being
the only early return. -/
theorem start_ignores_missing_response (stations : List StKey)
    (paths : String → Option String) (fs : String → Option Rat)
    (window_seconds rate : Nat) (data_timeout : Int) (sta : String)
    (hne : stations.isEmpty = false)
    (hmiss : (hardcodedPaths sta).bind fs = none) :
    (initState stations paths fs window_seconds rate data_timeout).inventories sta = none
  ∧ start_subscribed stations = some stations := by
  constructor
  · show load_inventories stations hardcodedPaths fs sta = none
    unfold load_inventories
    split
    · exact hmiss
    · rfl
  · simp [start_subscribed, hne]

/-- C6 amended witness at the pathless station A1. -/
theorem start_ignores_missing_response_witness :
    (c6Stations.isEmpty = false
     ∧ (hardcodedPaths "A1").bind (fun _ => some (1 : Rat)) = none)
  ∧ (initState c6Stations (fun _ => none) (fun _ => some 1) 2 1 30).inventories "A1" = none
  ∧ start_subscribed c6Stations = some c6Stations := by
  have h := start_ignores_missing_response c6Stations (fun _ => none) (fun _ => some 1)
    2 1 30 "A1" (by decide) (by decide)
  exact ⟨⟨by decide, by decide⟩, h.1, h.2⟩
